import Mathlib

/-!
Shallow embedding of the credit-ledger logic of the bookstore backend
(route handlers in src/routes/chapters.ts, src/routes/payments.ts and
src/routes/auth.ts).  The external relational store (two tables, `users`
and `guests`, filtered by equality on the `id` column) is modelled as two
association lists; each handler becomes a pure function from the request
and the current store to a response value and the next store.  Database
errors and the provider SDK calls are outside the embedded logic: the
provider's answer (payment intent / checkout session) is passed to the
confirm handlers as an explicit input, and store writes are assumed to
succeed (every claim is about the success path of persistence).
-/

namespace Bookstore

/-- Account profile row: the columns of the `users` / `guests` tables that
the modelled handlers read or write.  `number_of_credits` is an SQL
integer (`Int`); `paid_chapters` is the array of `bookId:chapterNumber`
marker strings; `purchasedProducts` is the array that `parseSettings`
extracts from the opaque `settings` JSON blob (an absent or non-array
entry parses to `[]`, which `[]` also represents here).  Columns never
inspected by the modelled logic (`email`, `bookmarks`, other settings
keys) are omitted. -/
structure Profile where
  number_of_credits : Int
  paid_chapters : List String
  purchasedProducts : List String
deriving Repr, DecidableEq

/-- The two storage partitions an account row can live in. -/
inductive Table where
  | users
  | guests
deriving Repr, DecidableEq

/-- The relational store: the `users` and `guests` tables, as association
lists from the `id` column to the row. -/
structure Store where
  users : List (String × Profile)
  guests : List (String × Profile)
deriving Repr, DecidableEq

/-- `select ... .eq('id', id) .maybeSingle()`: first row whose `id` column
equals `id`. -/
def lookupRow (tbl : List (String × Profile)) (id : String) : Option Profile :=
  match tbl with
  | [] => none
  | kv :: rest => if kv.1 = id then some kv.2 else lookupRow rest id

/-- `update {...} .eq('id', id)`: rewrite every row whose `id` column
equals `id` through `f`, leaving the others alone. -/
def updateTable (tbl : List (String × Profile)) (id : String)
    (f : Profile → Profile) : List (String × Profile) :=
  tbl.map (fun kv => if kv.1 = id then (kv.1, f kv.2) else kv)

/-- `upsert(row, { onConflict: 'id' })` with the default merge-duplicates
resolution: if a row with this `id` exists its columns are overwritten
with the supplied values, otherwise the row is inserted. -/
def upsertRow (tbl : List (String × Profile)) (id : String) (p : Profile) :
    List (String × Profile) :=
  match lookupRow tbl id with
  | some _ => updateTable tbl id (fun _ => p)
  | none => tbl ++ [(id, p)]

/-- The default-initialized profile both `ensureAccount` helpers upsert
into `guests` (`number_of_credits: 0`, `paid_chapters: []`,
`settings: {}`). -/
def baseProfile : Profile := ⟨0, [], []⟩

/-- The `ensureAccount` helper shared (verbatim, up to selected columns)
by chapters.ts and payments.ts: fetch the row from `users`, then from
`guests`; if neither exists, upsert a default profile into `guests`.
Returns the table the account resolved to, its row, and the store. -/
def ensureAccount (userId : String) (s : Store) : Table × Profile × Store :=
  match lookupRow s.users userId with
  | some p => (.users, p, s)
  | none =>
    match lookupRow s.guests userId with
    | some p => (.guests, p, s)
    | none => (.guests, baseProfile,
        { s with guests := upsertRow s.guests userId baseProfile })

/-- Write-back of an account row to the partition `ensureAccount`
resolved it from (`.update(...).eq('id', userId)` on that table). -/
def writeAccount (tbl : Table) (userId : String) (f : Profile → Profile)
    (s : Store) : Store :=
  match tbl with
  | .users => { s with users := updateTable s.users userId f }
  | .guests => { s with guests := updateTable s.guests userId f }

/-! ## Chapter unlock (POST /api/chapters/unlock, chapters.ts) -/

/-- Response of the unlock handler.  `missingFields` and
`insufficientCredits` are the HTTP 400 responses, the other three are the
200 success bodies (`freeChapter` carries `credits: null,
paidChapters: null`). -/
inductive UnlockResult where
  | missingFields
  | freeChapter
  | alreadyUnlocked (credits : Int) (paidChapters : List String)
  | insufficientCredits (required : Int) (current : Int)
  | unlocked (credits : Int) (paidChapters : List String)
deriving Repr, DecidableEq

/-- HTTP status the unlock handler sends with each response. -/
def UnlockResult.httpStatus : UnlockResult → Nat
  | .missingFields => 400
  | .insufficientCredits _ _ => 400
  | _ => 200

/-- Whether the unlock response body carries `success: true`. -/
def UnlockResult.isSuccess : UnlockResult → Bool
  | .freeChapter => true
  | .alreadyUnlocked _ _ => true
  | .unlocked _ _ => true
  | _ => false

/-- `const chapterCost = 50`. -/
def chapterCost : Int := 50

/-- The idempotency marker recorded for an unlocked chapter:
`` `${bookId}:${chapterNum}` ``. -/
def chapterKey (bookId : String) (chapterNum : Int) : String :=
  bookId ++ ":" ++ toString chapterNum

/-- The part of the unlock handler after `ensureAccount`: already-unlocked
check against `paid_chapters`, balance check against `chapterCost`, then
the combined write of `number_of_credits` and `paid_chapters`. -/
def applyUnlock (tbl : Table) (userId bookId : String) (chapterNum : Int)
    (p : Profile) (s : Store) : UnlockResult × Store :=
  let key := chapterKey bookId chapterNum
  if key ∈ p.paid_chapters then
    (.alreadyUnlocked p.number_of_credits p.paid_chapters, s)
  else if p.number_of_credits < chapterCost then
    (.insufficientCredits chapterCost p.number_of_credits, s)
  else
    let newCredits := p.number_of_credits - chapterCost
    let updatedPaidChapters := p.paid_chapters ++ [key]
    (.unlocked newCredits updatedPaidChapters,
      writeAccount tbl userId
        (fun q => { q with number_of_credits := newCredits,
                           paid_chapters := updatedPaidChapters }) s)

/-- POST /api/chapters/unlock.  The missing-field guard
`!userId || !bookId || !chapterNum` uses JS truthiness: an empty string
or the number `0` is falsy.  Chapters with `chapterNum < 6` are free and
return before any ledger interaction. -/
def unlockChapter (userId bookId : String) (chapterNum : Int) (s : Store) :
    UnlockResult × Store :=
  if userId = "" ∨ bookId = "" ∨ chapterNum = 0 then (.missingFields, s)
  else if chapterNum < 6 then (.freeChapter, s)
  else
    let e := ensureAccount userId s
    applyUnlock e.1 userId bookId chapterNum e.2.1 e.2.2

/-! ## Credit packages and purchase confirmation (payments.ts) -/

/-- A credit package of `CREDIT_PACKAGES`.  The `price` (a float only
used when creating a checkout/intent), the Stripe `priceId`, and the
display fields `highlight` / `tagline` play no part in the confirm
handlers and are omitted.  `oneTime` is optional in the source
(`oneTime?: boolean`); absence is falsy, modelled as `false`. -/
structure CreditPackage where
  id : String
  baseCredits : Int
  bonusPercent : Int
  totalCredits : Int
  productId : String
  oneTime : Bool
deriving Repr, DecidableEq

/-- The `CREDIT_PACKAGES` table of payments.ts.  Only the `200` starter
pack is `oneTime`. -/
def CREDIT_PACKAGES : List CreditPackage :=
  [ ⟨"200", 200, 200, 600, "credits_200", true⟩,
    ⟨"500", 500, 0, 500, "credits_500", false⟩,
    ⟨"1000", 1000, 10, 1100, "credits_1000", false⟩,
    ⟨"2000", 2000, 15, 2300, "credits_2000", false⟩,
    ⟨"3000", 3000, 20, 3600, "credits_3000", false⟩,
    ⟨"5000", 5000, 25, 6250, "credits_5000", false⟩,
    ⟨"10000", 10000, 30, 13000, "credits_10000", false⟩ ]

/-- `CREDIT_PACKAGES.find((pkg) => pkg.id === id)`. -/
def findPackageById (id : String) : Option CreditPackage :=
  CREDIT_PACKAGES.find? (fun pkg => pkg.id = id)

/-- JS truthiness of an optional string metadata entry: `undefined` and
the empty string are falsy. -/
def optFalsy : Option String → Bool
  | none => true
  | some v => v = ""

/-- What `stripe.paymentIntents.retrieve` reports about a PaymentIntent:
its `status` and the `metadata` entries the confirm handler reads
(absent entries are `none`). -/
structure PaymentIntent where
  status : String
  packageId : Option String
  productId : Option String
  userId : Option String
deriving Repr, DecidableEq

/-- What `stripe.checkout.sessions.retrieve` reports about a Checkout
session: `payment_status`, `status`, the `metadata` entries, and
`client_reference_id`. -/
structure CheckoutSession where
  payment_status : String
  status : String
  packageId : Option String
  productId : Option String
  userId : Option String
  client_reference_id : Option String
deriving Repr, DecidableEq

/-- Response of the two confirm handlers.  `missingFields`,
`notCompleted`, `missingMetadata`, `ownershipMismatch` and
`packageNotFound` are 400 responses, `intentNotFound` is the 404,
`alreadyPurchased` and `credited` are the 200 bodies (`alreadyPurchased`
is the `creditsAdded: 0` / `Product already purchased` success). -/
inductive ConfirmResult where
  | missingFields
  | intentNotFound
  | notCompleted
  | missingMetadata
  | ownershipMismatch
  | packageNotFound
  | alreadyPurchased (newTotal : Int) (purchasedProducts : List String)
  | credited (creditsAdded : Int) (newTotal : Int) (purchasedProducts : List String)
deriving Repr, DecidableEq

/-- HTTP status the confirm handlers send with each response. -/
def ConfirmResult.httpStatus : ConfirmResult → Nat
  | .missingFields => 400
  | .intentNotFound => 404
  | .notCompleted => 400
  | .missingMetadata => 400
  | .ownershipMismatch => 400
  | .packageNotFound => 400
  | .alreadyPurchased _ _ => 200
  | .credited _ _ _ => 200

/-- The `creditsAdded` field of a 200 confirm response (`some 0` for the
already-purchased no-op); error responses carry none. -/
def ConfirmResult.creditsAdded : ConfirmResult → Option Int
  | .alreadyPurchased _ _ => some 0
  | .credited a _ _ => some a
  | _ => none

/-- The part of both confirm handlers after `ensureAccount`: the
one-time idempotency check against `settings.purchasedProducts`, then
the combined write of `number_of_credits` and `settings`.  The source
manipulates the markers through a JS `Set` built from the stored array;
for the duplicate-free arrays these handlers produce, `Set.has` is list
membership and `Array.from(set)` after `add` is appending. -/
def applyPurchase (tbl : Table) (userId productId : String)
    (packageData : CreditPackage) (p : Profile) (s : Store) :
    ConfirmResult × Store :=
  if packageData.oneTime ∧ productId ∈ p.purchasedProducts then
    (.alreadyPurchased p.number_of_credits p.purchasedProducts, s)
  else
    let newCredits := p.number_of_credits + packageData.totalCredits
    let newPurchased :=
      if packageData.oneTime then p.purchasedProducts ++ [productId]
      else p.purchasedProducts
    (.credited packageData.totalCredits newCredits newPurchased,
      writeAccount tbl userId
        (fun q => { q with number_of_credits := newCredits,
                           purchasedProducts := newPurchased }) s)

/-- POST /api/payments/stripe/payment-sheet/confirm.  `intent?` is what
the Stripe retrieve call returned (`none` = not found).  Accepted
statuses are `succeeded` and `requires_capture`; the ownership check
fires only when `metadata.userId` is truthy and differs from the
requesting `userId`. -/
def confirmPaymentSheet (paymentIntentId userId : String)
    (intent? : Option PaymentIntent) (s : Store) : ConfirmResult × Store :=
  if paymentIntentId = "" ∨ userId = "" then (.missingFields, s)
  else
    match intent? with
    | none => (.intentNotFound, s)
    | some intent =>
      if intent.status ≠ "succeeded" ∧ intent.status ≠ "requires_capture" then
        (.notCompleted, s)
      else if optFalsy intent.packageId ∨ optFalsy intent.productId then
        (.missingMetadata, s)
      else
        let productId := intent.productId.getD ""
        let intentUserId := intent.userId.getD ""
        if intentUserId ≠ "" ∧ intentUserId ≠ userId then (.ownershipMismatch, s)
        else
          match findPackageById (intent.packageId.getD "") with
          | none => (.packageNotFound, s)
          | some packageData =>
            let e := ensureAccount userId s
            applyPurchase e.1 userId productId packageData e.2.1 e.2.2

/-- POST /api/payments/stripe/confirm (Checkout).  `session?` is what the
Stripe retrieve call returned.  A session is accepted when
`payment_status = paid` or `status = complete`; the embedded account id
is `metadata.userId || client_reference_id`. -/
def confirmCheckout (sessionId userId : String)
    (session? : Option CheckoutSession) (s : Store) : ConfirmResult × Store :=
  if sessionId = "" ∨ userId = "" then (.missingFields, s)
  else
    match session? with
    | none => (.intentNotFound, s)
    | some session =>
      if session.payment_status ≠ "paid" ∧ session.status ≠ "complete" then
        (.notCompleted, s)
      else if optFalsy session.packageId ∨ optFalsy session.productId then
        (.missingMetadata, s)
      else
        let productId := session.productId.getD ""
        let sessionUserId :=
          if optFalsy session.userId then session.client_reference_id.getD ""
          else session.userId.getD ""
        if sessionUserId ≠ "" ∧ sessionUserId ≠ userId then (.ownershipMismatch, s)
        else
          match findPackageById (session.packageId.getD "") with
          | none => (.packageNotFound, s)
          | some packageData =>
            let e := ensureAccount userId s
            applyPurchase e.1 userId productId packageData e.2.1 e.2.2

/-! ## POST /api/auth/verify profile upsert (auth.ts) -/

/-- The profile row POST /api/auth/verify upserts after a successful OTP
verification: `number_of_credits: 1250`, `settings: {}`,
`paid_chapters: []` (plus `email`/`bookmarks`, not modelled). -/
def verifyDefaultProfile : Profile := ⟨1250, [], []⟩

/-- The profile upsert of POST /api/auth/verify: an
`upsert({... number_of_credits: 1250 ...}, { onConflict: 'id' })` into
`users`, which with the client's default merge-duplicates resolution
overwrites the columns of an existing row. -/
def verifyProfileUpsert (authUserId : String) (s : Store) : Store :=
  { s with users := upsertRow s.users authUserId verifyDefaultProfile }

/-! ## Invariants and multi-request runs -/

/-- Every row of a table has a non-negative credit balance. -/
def TableNonneg (tbl : List (String × Profile)) : Prop :=
  ∀ kv ∈ tbl, 0 ≤ (Prod.snd kv).number_of_credits

instance (tbl : List (String × Profile)) : Decidable (TableNonneg tbl) :=
  inferInstanceAs (Decidable (∀ kv ∈ tbl, 0 ≤ (Prod.snd kv).number_of_credits))

/-- Both partitions of the store satisfy the balance invariant. -/
def StoreNonneg (s : Store) : Prop :=
  TableNonneg s.users ∧ TableNonneg s.guests

instance (s : Store) : Decidable (StoreNonneg s) :=
  inferInstanceAs (Decidable (TableNonneg s.users ∧ TableNonneg s.guests))

/-- Account `uid` resolves to row `p` under the lookup-order policy of
`ensureAccount` (registered `users` first, then `guests`), without a
creation being needed. -/
def resolvesTo (s : Store) (uid : String) (p : Profile) : Prop :=
  lookupRow s.users uid = some p ∨
    (lookupRow s.users uid = none ∧ lookupRow s.guests uid = some p)

/-- Run a sequence of unlock requests `(userId, bookId, chapterNum)`
against the store, threading the state. -/
def runUnlocks (reqs : List (String × String × Int)) (s : Store) : Store :=
  reqs.foldl (fun st r => (unlockChapter r.1 r.2.1 r.2.2 st).2) s

/-! ## Sanity checks of the embedding on concrete inputs -/

example :
    unlockChapter "u1" "b1" 6 ⟨[("u1", ⟨100, [], []⟩)], []⟩ =
      (.unlocked 50 ["b1:6"], ⟨[("u1", ⟨50, ["b1:6"], []⟩)], []⟩) := by decide

example :
    unlockChapter "u1" "b1" 3 ⟨[("u1", ⟨100, [], []⟩)], []⟩ =
      (.freeChapter, ⟨[("u1", ⟨100, [], []⟩)], []⟩) := by decide

example :
    unlockChapter "u2" "b1" 7 ⟨[("u1", ⟨100, [], []⟩)], []⟩ =
      (.insufficientCredits 50 0,
        ⟨[("u1", ⟨100, [], []⟩)], [("u2", baseProfile)]⟩) := by decide

example :
    let intent : PaymentIntent :=
      ⟨"succeeded", some "200", some "credits_200", some "u1"⟩
    confirmPaymentSheet "pi_1" "u1" (some intent)
        ⟨[("u1", ⟨0, [], []⟩)], []⟩ =
      (.credited 600 600 ["credits_200"],
        ⟨[("u1", ⟨600, [], ["credits_200"]⟩)], []⟩) := by decide

example :
    let intent : PaymentIntent :=
      ⟨"succeeded", some "500", some "credits_500", some "u1"⟩
    confirmPaymentSheet "pi_1" "u1" (some intent)
        ⟨[("u1", ⟨0, [], []⟩)], []⟩ =
      (.credited 500 500 [],
        ⟨[("u1", ⟨500, [], []⟩)], []⟩) := by decide

example :
    let sess : CheckoutSession :=
      ⟨"paid", "complete", some "200", some "credits_200", none, some "u1"⟩
    confirmCheckout "cs_1" "u1" (some sess)
        ⟨[], [("u1", ⟨10, [], ["credits_200"]⟩)]⟩ =
      (.alreadyPurchased 10 ["credits_200"],
        ⟨[], [("u1", ⟨10, [], ["credits_200"]⟩)]⟩) := by decide

example :
    verifyProfileUpsert "u1" ⟨[("u1", ⟨500, ["b1:6"], ["credits_200"]⟩)], []⟩ =
      ⟨[("u1", verifyDefaultProfile)], []⟩ := by decide

/-! ## Lemmas about the store primitives -/

theorem lookupRow_updateTable_self (tbl : List (String × Profile)) (id : String)
    (f : Profile → Profile) :
    lookupRow (updateTable tbl id f) id = (lookupRow tbl id).map f := by
  induction tbl with
  | nil => rfl
  | cons kv rest ih =>
    by_cases h : kv.1 = id
    · simp [updateTable, lookupRow, h]
    · simpa [updateTable, lookupRow, h] using ih

theorem lookupRow_updateTable_ne (tbl : List (String × Profile)) (id id' : String)
    (f : Profile → Profile) (h : id' ≠ id) :
    lookupRow (updateTable tbl id f) id' = lookupRow tbl id' := by
  induction tbl with
  | nil => rfl
  | cons kv rest ih =>
    by_cases hk : kv.1 = id
    · have : ¬ kv.1 = id' := by
        intro hc
        exact h (hc ▸ hk ▸ rfl)
      simp only [updateTable, List.map_cons, if_pos hk] at *
      simp [lookupRow, this, ih]
    · by_cases hk' : kv.1 = id'
      · simp [updateTable, lookupRow, hk, hk', h]
      · simp only [updateTable, List.map_cons, if_neg hk] at *
        simp [lookupRow, hk', ih]

theorem lookupRow_append_single_self (tbl : List (String × Profile)) (id : String)
    (p : Profile) (h : lookupRow tbl id = none) :
    lookupRow (tbl ++ [(id, p)]) id = some p := by
  induction tbl with
  | nil => simp [lookupRow]
  | cons kv rest ih =>
    by_cases hk : kv.1 = id
    · simp [lookupRow, hk] at h
    · simp only [lookupRow, if_neg hk] at h
      simpa [lookupRow, hk] using ih h

theorem lookupRow_mem (tbl : List (String × Profile)) (id : String) (p : Profile)
    (h : lookupRow tbl id = some p) : ∃ kv ∈ tbl, Prod.snd kv = p := by
  induction tbl with
  | nil => simp [lookupRow] at h
  | cons kv rest ih =>
    by_cases hk : kv.1 = id
    · refine ⟨kv, List.mem_cons_self kv rest, ?_⟩
      simp [lookupRow, hk] at h
      exact h
    · simp only [lookupRow, if_neg hk] at h
      obtain ⟨kv', hmem, hp⟩ := ih h
      exact ⟨kv', List.mem_cons_of_mem kv hmem, hp⟩

theorem TableNonneg.of_lookup {tbl : List (String × Profile)} {id : String}
    {p : Profile} (hT : TableNonneg tbl) (h : lookupRow tbl id = some p) :
    0 ≤ p.number_of_credits := by
  obtain ⟨kv, hmem, hp⟩ := lookupRow_mem tbl id p h
  exact hp ▸ hT kv hmem

theorem TableNonneg.updateTable {tbl : List (String × Profile)} {id : String}
    {f : Profile → Profile} (hT : TableNonneg tbl)
    (hf : ∀ q, 0 ≤ (f q).number_of_credits) :
    TableNonneg (Bookstore.updateTable tbl id f) := by
  intro kv hkv
  obtain ⟨kv', hmem', heq⟩ := List.mem_map.mp hkv
  by_cases h : kv'.1 = id
  · rw [if_pos h] at heq
    exact heq ▸ hf kv'.2
  · rw [if_neg h] at heq
    exact heq ▸ hT kv' hmem'

theorem TableNonneg.append_single {tbl : List (String × Profile)} {id : String}
    {p : Profile} (hT : TableNonneg tbl) (hp : 0 ≤ p.number_of_credits) :
    TableNonneg (tbl ++ [(id, p)]) := by
  intro kv hkv
  rcases List.mem_append.mp hkv with hmem | hmem
  · exact hT kv hmem
  · rw [List.mem_singleton.mp hmem]
    exact hp

theorem TableNonneg.upsertRow {tbl : List (String × Profile)} {id : String}
    {p : Profile} (hT : TableNonneg tbl) (hp : 0 ≤ p.number_of_credits) :
    TableNonneg (Bookstore.upsertRow tbl id p) := by
  unfold Bookstore.upsertRow
  cases lookupRow tbl id with
  | none => exact hT.append_single hp
  | some _ => exact hT.updateTable (fun _ => hp)

/-! ## Lemmas about `ensureAccount` -/

theorem ensureAccount_users {s : Store} {u : String} {p : Profile}
    (h : lookupRow s.users u = some p) : ensureAccount u s = (.users, p, s) := by
  simp [ensureAccount, h]

theorem ensureAccount_guests {s : Store} {u : String} {p : Profile}
    (h1 : lookupRow s.users u = none) (h2 : lookupRow s.guests u = some p) :
    ensureAccount u s = (.guests, p, s) := by
  simp [ensureAccount, h1, h2]

theorem ensureAccount_create {s : Store} {u : String}
    (h1 : lookupRow s.users u = none) (h2 : lookupRow s.guests u = none) :
    ensureAccount u s = (.guests, baseProfile,
      { s with guests := s.guests ++ [(u, baseProfile)] }) := by
  simp [ensureAccount, h1, h2, upsertRow]

theorem ensureAccount_resolvesTo {s : Store} {u : String} {p : Profile}
    (h : resolvesTo s u p) : ∃ tbl, ensureAccount u s = (tbl, p, s) := by
  rcases h with h | ⟨h1, h2⟩
  · exact ⟨.users, ensureAccount_users h⟩
  · exact ⟨.guests, ensureAccount_guests h1 h2⟩

theorem ensureAccount_nonneg {s : Store} {u : String} (h : StoreNonneg s) :
    0 ≤ (ensureAccount u s).2.1.number_of_credits ∧
      StoreNonneg (ensureAccount u s).2.2 := by
  rcases hu : lookupRow s.users u with _ | p
  · rcases hg : lookupRow s.guests u with _ | p
    · rw [ensureAccount_create hu hg]
      exact ⟨le_refl 0, h.1, h.2.append_single (le_refl 0)⟩
    · rw [ensureAccount_guests hu hg]
      exact ⟨h.2.of_lookup hg, h⟩
  · rw [ensureAccount_users hu]
    exact ⟨h.1.of_lookup hu, h⟩

theorem StoreNonneg.writeAccount {s : Store} {tbl : Table} {u : String}
    {f : Profile → Profile} (h : StoreNonneg s)
    (hf : ∀ q, 0 ≤ (f q).number_of_credits) :
    StoreNonneg (Bookstore.writeAccount tbl u f s) := by
  cases tbl with
  | users => exact ⟨h.1.updateTable hf, h.2⟩
  | guests => exact ⟨h.1, h.2.updateTable hf⟩

theorem applyUnlock_nonneg {tbl : Table} {u b : String} {n : Int} {p : Profile}
    {s : Store} (hs : StoreNonneg s) :
    StoreNonneg (applyUnlock tbl u b n p s).2 := by
  simp only [applyUnlock]
  split
  · exact hs
  · split
    · exact hs
    · rename_i hc
      exact hs.writeAccount (fun q => Int.sub_nonneg.mpr (Int.not_lt.mp hc))

theorem unlockChapter_nonneg {u b : String} {n : Int} {s : Store}
    (h : StoreNonneg s) : StoreNonneg (unlockChapter u b n s).2 := by
  simp only [unlockChapter]
  split
  · exact h
  · split
    · exact h
    · exact applyUnlock_nonneg (ensureAccount_nonneg h).2

theorem runUnlocks_nonneg (reqs : List (String × String × Int)) {s : Store}
    (h : StoreNonneg s) : StoreNonneg (runUnlocks reqs s) := by
  induction reqs generalizing s with
  | nil => exact h
  | cons r rest ih => exact ih (unlockChapter_nonneg h)

theorem unlockChapter_insufficient_frame {u b : String} {n : Int} {s : Store}
    {p : Profile} (hacc : resolvesTo s u p) {r c : Int}
    (hres : (unlockChapter u b n s).1 = .insufficientCredits r c) :
    (unlockChapter u b n s).2 = s := by
  obtain ⟨tbl, hE⟩ := ensureAccount_resolvesTo hacc
  simp only [unlockChapter] at hres ⊢
  by_cases h0 : u = "" ∨ b = "" ∨ n = 0
  · rw [if_pos h0]
  · rw [if_neg h0] at hres ⊢
    by_cases h6 : n < 6
    · rw [if_pos h6]
    · rw [if_neg h6] at hres ⊢
      rw [hE] at hres ⊢
      simp only [applyUnlock] at hres ⊢
      by_cases hk : chapterKey b n ∈ p.paid_chapters
      · rw [if_pos hk]
      · rw [if_neg hk] at hres ⊢
        by_cases hc : p.number_of_credits < chapterCost
        · rw [if_pos hc]
        · rw [if_neg hc] at hres
          simp at hres

theorem unlockChapter_after_resolve {u b : String} {n : Int} {s s₁ : Store}
    {p : Profile} {tbl : Table}
    (h0 : ¬(u = "" ∨ b = "" ∨ n = 0)) (h6 : ¬ n < 6)
    (hE : ensureAccount u s = (tbl, p, s₁)) :
    unlockChapter u b n s = applyUnlock tbl u b n p s₁ := by
  simp only [unlockChapter]
  rw [if_neg h0, if_neg h6, hE]

theorem applyUnlock_unlocked_inv {tbl : Table} {u b : String} {n : Int}
    {p : Profile} {s s' : Store} {c : Int} {pc : List String}
    (h : applyUnlock tbl u b n p s = (.unlocked c pc, s')) :
    chapterKey b n ∉ p.paid_chapters ∧ chapterCost ≤ p.number_of_credits ∧
    c = p.number_of_credits - chapterCost ∧
    pc = p.paid_chapters ++ [chapterKey b n] ∧
    s' = writeAccount tbl u
      (fun q => { q with number_of_credits := c, paid_chapters := pc }) s := by
  simp only [applyUnlock] at h
  by_cases hk : chapterKey b n ∈ p.paid_chapters
  · rw [if_pos hk] at h
    simp at h
  · rw [if_neg hk] at h
    by_cases hc : p.number_of_credits < chapterCost
    · rw [if_pos hc] at h
      simp at h
    · rw [if_neg hc] at h
      simp only [Prod.mk.injEq, UnlockResult.unlocked.injEq] at h
      obtain ⟨⟨hc1, hc2⟩, hs'⟩ := h
      subst hc1
      subst hc2
      exact ⟨hk, Int.not_lt.mp hc, rfl, rfl, hs'.symm⟩

theorem applyUnlock_already {tbl : Table} {u b : String} {n : Int} {p : Profile}
    {s : Store} (hk : chapterKey b n ∈ p.paid_chapters) :
    applyUnlock tbl u b n p s =
      (.alreadyUnlocked p.number_of_credits p.paid_chapters, s) := by
  simp only [applyUnlock]
  rw [if_pos hk]

/-! ## Claim theorems: chapter unlock -/

/-- C1: for every account and every sequence of chapter-unlock (debit)
requests, the stored credit balance never becomes negative: starting from a
store whose balances are all non-negative, any sequence of unlock requests
preserves the invariant, and an unlock rejected for insufficient credits
leaves the store exactly as it was (no state change on a rejected debit). -/
theorem unlock_balance_never_negative (reqs : List (String × String × Int))
    (s : Store) (h : StoreNonneg s) :
    StoreNonneg (runUnlocks reqs s) ∧
    ∀ (u b : String) (n : Int) (p : Profile), resolvesTo s u p →
      ∀ r c : Int, (unlockChapter u b n s).1 = .insufficientCredits r c →
        (unlockChapter u b n s).2 = s :=
  ⟨runUnlocks_nonneg reqs h,
    fun _ _ _ _ hacc _ _ hres => unlockChapter_insufficient_frame hacc hres⟩

/-- Witness for C1 at a concrete store and request sequence (two paid
unlocks from a 60-credit balance; the second is rejected). -/
theorem unlock_balance_never_negative_witness :
    StoreNonneg (runUnlocks [("u1", "b1", 6), ("u1", "b1", 7)]
      ⟨[("u1", ⟨60, [], []⟩)], []⟩) ∧
    ∀ (u b : String) (n : Int) (p : Profile),
      resolvesTo ⟨[("u1", ⟨60, [], []⟩)], []⟩ u p →
      ∀ r c : Int,
        (unlockChapter u b n ⟨[("u1", ⟨60, [], []⟩)], []⟩).1 =
          .insufficientCredits r c →
        (unlockChapter u b n ⟨[("u1", ⟨60, [], []⟩)], []⟩).2 =
          ⟨[("u1", ⟨60, [], []⟩)], []⟩ :=
  unlock_balance_never_negative _ _ (by decide)

/-- C2: unlocking the same `(accountId, bookId, chapterNumber)` twice
deducts the cost exactly once: if the first call deducted and unlocked,
the repeat call finds the marker in `paid_chapters` and returns the
already-unlocked success with the same balance and marker set, changing
nothing — whatever the balance now is. -/
theorem unlock_idempotent (u b : String) (n : Int) (s s' : Store)
    (c : Int) (pc : List String)
    (h : unlockChapter u b n s = (.unlocked c pc, s')) :
    unlockChapter u b n s' = (.alreadyUnlocked c pc, s') := by
  by_cases h0 : u = "" ∨ b = "" ∨ n = 0
  · simp only [unlockChapter, if_pos h0] at h
    simp at h
  by_cases h6 : n < 6
  · simp only [unlockChapter, if_neg h0, if_pos h6] at h
    simp at h
  rcases hu : lookupRow s.users u with _ | p
  · rcases hg : lookupRow s.guests u with _ | p
    · rw [unlockChapter_after_resolve h0 h6 (ensureAccount_create hu hg)] at h
      obtain ⟨_, hge, _, _, _⟩ := applyUnlock_unlocked_inv h
      exact absurd hge (by decide)
    · rw [unlockChapter_after_resolve h0 h6 (ensureAccount_guests hu hg)] at h
      obtain ⟨hk, hge, hc, hpc, hs'⟩ := applyUnlock_unlocked_inv h
      have hu' : lookupRow s'.users u = none := by
        rw [hs']
        simpa [writeAccount] using hu
      have hg' : lookupRow s'.guests u = some ⟨c, pc, p.purchasedProducts⟩ := by
        rw [hs']
        simp only [writeAccount]
        rw [lookupRow_updateTable_self, hg]
        rfl
      rw [unlockChapter_after_resolve h0 h6 (ensureAccount_guests hu' hg')]
      rw [applyUnlock_already
        (hpc ▸ List.mem_append_right p.paid_chapters (List.mem_singleton_self _))]
  · rw [unlockChapter_after_resolve h0 h6 (ensureAccount_users hu)] at h
    obtain ⟨hk, hge, hc, hpc, hs'⟩ := applyUnlock_unlocked_inv h
    have hu' : lookupRow s'.users u = some ⟨c, pc, p.purchasedProducts⟩ := by
      rw [hs']
      simp only [writeAccount]
      rw [lookupRow_updateTable_self, hu]
      rfl
    rw [unlockChapter_after_resolve h0 h6 (ensureAccount_users hu')]
    rw [applyUnlock_already
      (hpc ▸ List.mem_append_right p.paid_chapters (List.mem_singleton_self _))]

/-- Witness for C2: unlocking chapter 6 of `b1` twice from a 60-credit
balance deducts once and then no-ops. -/
theorem unlock_idempotent_witness :
    unlockChapter "u1" "b1" 6
        ⟨[("u1", ⟨10, ["b1:6"], []⟩)], []⟩ =
      (.alreadyUnlocked 10 ["b1:6"], ⟨[("u1", ⟨10, ["b1:6"], []⟩)], []⟩) :=
  unlock_idempotent "u1" "b1" 6 ⟨[("u1", ⟨60, [], []⟩)], []⟩ _ _ _ (by decide)

/-- C3: an existing account whose balance is short of the 50-credit cost
of a not-yet-unlocked paid chapter gets the insufficient-credits
rejection reporting the required and current amounts with HTTP 400, and
the store — balance and marker set — is untouched. -/
theorem unlock_insufficient_funds (u b : String) (n : Int) (s : Store)
    (p : Profile) (hacc : resolvesTo s u p) (hu : u ≠ "") (hb : b ≠ "")
    (hn0 : n ≠ 0) (hn6 : ¬ n < 6) (hkey : chapterKey b n ∉ p.paid_chapters)
    (hlow : p.number_of_credits < chapterCost) :
    unlockChapter u b n s =
      (.insufficientCredits chapterCost p.number_of_credits, s) ∧
    (UnlockResult.insufficientCredits chapterCost
      p.number_of_credits).httpStatus = 400 := by
  obtain ⟨tbl, hE⟩ := ensureAccount_resolvesTo hacc
  have h0 : ¬(u = "" ∨ b = "" ∨ n = 0) := by simp [hu, hb, hn0]
  refine ⟨?_, rfl⟩
  rw [unlockChapter_after_resolve h0 hn6 hE]
  simp only [applyUnlock]
  rw [if_neg hkey, if_pos hlow]

/-- Witness for C3 at the spec's boundary: balance 49, cost 50. -/
theorem unlock_insufficient_funds_witness :
    unlockChapter "u1" "b1" 6 ⟨[("u1", ⟨49, [], []⟩)], []⟩ =
      (.insufficientCredits 50 49, ⟨[("u1", ⟨49, [], []⟩)], []⟩) ∧
    (UnlockResult.insufficientCredits 50 49).httpStatus = 400 :=
  unlock_insufficient_funds "u1" "b1" 6 _ ⟨49, [], []⟩ (Or.inl (by decide))
    (by decide) (by decide) (by decide) (by decide) (by decide) (by decide)

/-- C4 counterexample: chapter number 0 is below the free threshold 6,
yet the unlock operation does not succeed there — the JS guard
`!chapterNum` treats 0 as falsy, so the handler answers the 400
missing-fields error. -/
theorem unlock_chapter_zero_not_free :
    (0 : Int) < 6 ∧
    unlockChapter "u1" "b1" 0 ⟨[("u1", ⟨100, [], []⟩)], []⟩ =
      (.missingFields, ⟨[("u1", ⟨100, [], []⟩)], []⟩) ∧
    UnlockResult.missingFields.isSuccess = false ∧
    UnlockResult.missingFields.httpStatus = 400 := by decide

/-- C4 amended: for every nonzero chapter number below 6 (the required
request fields being present) the unlock succeeds immediately with no
ledger interaction — the store is returned untouched — and unlocking
chapter 6 with sufficient balance deducts exactly the fixed 50-credit
cost. -/
theorem free_threshold_boundary :
    (∀ (u b : String) (n : Int) (s : Store), u ≠ "" → b ≠ "" → n ≠ 0 →
      n < 6 → unlockChapter u b n s = (.freeChapter, s)) ∧
    (∀ (u b : String) (s : Store) (p : Profile), resolvesTo s u p →
      u ≠ "" → b ≠ "" → chapterKey b 6 ∉ p.paid_chapters →
      chapterCost ≤ p.number_of_credits →
      (unlockChapter u b 6 s).1 =
        .unlocked (p.number_of_credits - chapterCost)
          (p.paid_chapters ++ [chapterKey b 6])) := by
  constructor
  · intro u b n s hu hb hn0 hn6
    have h0 : ¬(u = "" ∨ b = "" ∨ n = 0) := by simp [hu, hb, hn0]
    simp only [unlockChapter]
    rw [if_neg h0, if_pos hn6]
  · intro u b s p hacc hu hb hkey hge
    obtain ⟨tbl, hE⟩ := ensureAccount_resolvesTo hacc
    have h0 : ¬(u = "" ∨ b = "" ∨ (6 : Int) = 0) := by simp [hu, hb]
    rw [unlockChapter_after_resolve h0 (by decide) hE]
    simp only [applyUnlock]
    rw [if_neg hkey, if_neg (Int.not_lt.mpr hge)]

/-- Witness for C4 amended: chapter 5 is free and untouched at balance
49; chapter 6 at balance 50 deducts exactly 50. -/
theorem free_threshold_boundary_witness :
    unlockChapter "u1" "b1" 5 ⟨[("u1", ⟨49, [], []⟩)], []⟩ =
      (.freeChapter, ⟨[("u1", ⟨49, [], []⟩)], []⟩) ∧
    (unlockChapter "u1" "b1" 6 ⟨[("u1", ⟨50, [], []⟩)], []⟩).1 =
      .unlocked 0 ["b1:6"] :=
  ⟨free_threshold_boundary.1 "u1" "b1" 5 _ (by decide) (by decide)
      (by decide) (by decide),
   free_threshold_boundary.2 "u1" "b1" _ ⟨50, [], []⟩ (Or.inl (by decide))
      (by decide) (by decide) (by decide) (by decide)⟩

/-! ## Lemmas about the confirm handlers -/

theorem ensureAccount_write_roundtrip (u : String) (f : Profile → Profile)
    (s : Store) :
    ensureAccount u
        (writeAccount (ensureAccount u s).1 u f (ensureAccount u s).2.2) =
      ((ensureAccount u s).1, f (ensureAccount u s).2.1,
        writeAccount (ensureAccount u s).1 u f (ensureAccount u s).2.2) := by
  rcases hu : lookupRow s.users u with _ | p
  · rcases hg : lookupRow s.guests u with _ | p
    · rw [ensureAccount_create hu hg]
      refine ensureAccount_guests ?_ ?_
      · simpa [writeAccount] using hu
      · show lookupRow (updateTable (s.guests ++ [(u, baseProfile)]) u f) u = _
        rw [lookupRow_updateTable_self, lookupRow_append_single_self s.guests u _ hg]
        rfl
    · rw [ensureAccount_guests hu hg]
      refine ensureAccount_guests ?_ ?_
      · simpa [writeAccount] using hu
      · show lookupRow (updateTable s.guests u f) u = _
        rw [lookupRow_updateTable_self, hg]
        rfl
  · rw [ensureAccount_users hu]
    refine ensureAccount_users ?_
    show lookupRow (updateTable s.users u f) u = _
    rw [lookupRow_updateTable_self, hu]
    rfl

theorem confirmPaymentSheet_after_resolve {pid uid : String}
    {intent : PaymentIntent} {s s₁ : Store} {p : Profile} {tbl : Table}
    {pkg : CreditPackage}
    (hpid : pid ≠ "") (huid : uid ≠ "")
    (hst : ¬(intent.status ≠ "succeeded" ∧ intent.status ≠ "requires_capture"))
    (hmeta : ¬(optFalsy intent.packageId ∨ optFalsy intent.productId))
    (hown : ¬(intent.userId.getD "" ≠ "" ∧ intent.userId.getD "" ≠ uid))
    (hpkg : findPackageById (intent.packageId.getD "") = some pkg)
    (hE : ensureAccount uid s = (tbl, p, s₁)) :
    confirmPaymentSheet pid uid (some intent) s =
      applyPurchase tbl uid (intent.productId.getD "") pkg p s₁ := by
  simp only [confirmPaymentSheet]
  rw [if_neg (by simp [hpid, huid]), if_neg hst, if_neg hmeta, if_neg hown,
    hpkg, hE]

theorem confirmCheckout_after_resolve {sid uid : String}
    {sess : CheckoutSession} {s s₁ : Store} {p : Profile} {tbl : Table}
    {pkg : CreditPackage}
    (hsid : sid ≠ "") (huid : uid ≠ "")
    (hst : ¬(sess.payment_status ≠ "paid" ∧ sess.status ≠ "complete"))
    (hmeta : ¬(optFalsy sess.packageId ∨ optFalsy sess.productId))
    (hown : ¬((if optFalsy sess.userId then sess.client_reference_id.getD ""
        else sess.userId.getD "") ≠ "" ∧
      (if optFalsy sess.userId then sess.client_reference_id.getD ""
        else sess.userId.getD "") ≠ uid))
    (hpkg : findPackageById (sess.packageId.getD "") = some pkg)
    (hE : ensureAccount uid s = (tbl, p, s₁)) :
    confirmCheckout sid uid (some sess) s =
      applyPurchase tbl uid (sess.productId.getD "") pkg p s₁ := by
  simp only [confirmCheckout]
  rw [if_neg (by simp [hsid, huid]), if_neg hst, if_neg hmeta, if_neg hown,
    hpkg, hE]

theorem confirmPaymentSheet_credited_inv {pid uid : String}
    {intent : PaymentIntent} {s s' : Store} {a tot : Int} {pp : List String}
    (h : confirmPaymentSheet pid uid (some intent) s = (.credited a tot pp, s')) :
    pid ≠ "" ∧ uid ≠ "" ∧
    ¬(intent.status ≠ "succeeded" ∧ intent.status ≠ "requires_capture") ∧
    ¬(optFalsy intent.packageId ∨ optFalsy intent.productId) ∧
    ¬(intent.userId.getD "" ≠ "" ∧ intent.userId.getD "" ≠ uid) := by
  simp only [confirmPaymentSheet] at h
  by_cases h1 : pid = "" ∨ uid = ""
  · rw [if_pos h1] at h
    simp at h
  rw [if_neg h1] at h
  push_neg at h1
  by_cases h2 : intent.status ≠ "succeeded" ∧ intent.status ≠ "requires_capture"
  · rw [if_pos h2] at h
    simp at h
  rw [if_neg h2] at h
  by_cases h3 : optFalsy intent.packageId ∨ optFalsy intent.productId
  · rw [if_pos h3] at h
    simp at h
  rw [if_neg h3] at h
  by_cases h4 : intent.userId.getD "" ≠ "" ∧ intent.userId.getD "" ≠ uid
  · rw [if_pos h4] at h
    simp at h
  exact ⟨h1.1, h1.2, h2, h3, h4⟩

theorem confirmCheckout_credited_inv {sid uid : String}
    {sess : CheckoutSession} {s s' : Store} {a tot : Int} {pp : List String}
    (h : confirmCheckout sid uid (some sess) s = (.credited a tot pp, s')) :
    sid ≠ "" ∧ uid ≠ "" ∧
    ¬(sess.payment_status ≠ "paid" ∧ sess.status ≠ "complete") ∧
    ¬(optFalsy sess.packageId ∨ optFalsy sess.productId) ∧
    ¬((if optFalsy sess.userId then sess.client_reference_id.getD ""
        else sess.userId.getD "") ≠ "" ∧
      (if optFalsy sess.userId then sess.client_reference_id.getD ""
        else sess.userId.getD "") ≠ uid) := by
  simp only [confirmCheckout] at h
  by_cases h1 : sid = "" ∨ uid = ""
  · rw [if_pos h1] at h
    simp at h
  rw [if_neg h1] at h
  push_neg at h1
  by_cases h2 : sess.payment_status ≠ "paid" ∧ sess.status ≠ "complete"
  · rw [if_pos h2] at h
    simp at h
  rw [if_neg h2] at h
  by_cases h3 : optFalsy sess.packageId ∨ optFalsy sess.productId
  · rw [if_pos h3] at h
    simp at h
  rw [if_neg h3] at h
  by_cases h4 : (if optFalsy sess.userId then sess.client_reference_id.getD ""
      else sess.userId.getD "") ≠ "" ∧
    (if optFalsy sess.userId then sess.client_reference_id.getD ""
      else sess.userId.getD "") ≠ uid
  · rw [if_pos h4] at h
    simp at h
  exact ⟨h1.1, h1.2, h2, h3, h4⟩

theorem applyPurchase_credited_inv {tbl : Table} {u prod : String}
    {pkg : CreditPackage} {p : Profile} {s s' : Store} {a tot : Int}
    {pp : List String}
    (h : applyPurchase tbl u prod pkg p s = (.credited a tot pp, s')) :
    ¬(pkg.oneTime = true ∧ prod ∈ p.purchasedProducts) ∧
    a = pkg.totalCredits ∧ tot = p.number_of_credits + pkg.totalCredits ∧
    pp = (if pkg.oneTime then p.purchasedProducts ++ [prod]
      else p.purchasedProducts) ∧
    s' = writeAccount tbl u
      (fun q => { q with number_of_credits := tot,
                         purchasedProducts := pp }) s := by
  simp only [applyPurchase] at h
  split at h
  · simp at h
  · rename_i hm
    simp only [Prod.mk.injEq, ConfirmResult.credited.injEq] at h
    obtain ⟨⟨ha, htot, hpp⟩, hs'⟩ := h
    subst ha
    subst htot
    subst hpp
    exact ⟨hm, rfl, rfl, rfl, hs'.symm⟩

theorem applyPurchase_already {tbl : Table} {u prod : String}
    {pkg : CreditPackage} {p : Profile} {s : Store}
    (h1 : pkg.oneTime = true) (h2 : prod ∈ p.purchasedProducts) :
    applyPurchase tbl u prod pkg p s =
      (.alreadyPurchased p.number_of_credits p.purchasedProducts, s) := by
  simp only [applyPurchase]
  rw [if_pos ⟨h1, h2⟩]

theorem applyPurchase_not_oneTime {tbl : Table} {u prod : String}
    {pkg : CreditPackage} {p : Profile} {s : Store}
    (hot : pkg.oneTime = false) :
    applyPurchase tbl u prod pkg p s =
      (.credited pkg.totalCredits (p.number_of_credits + pkg.totalCredits)
          p.purchasedProducts,
        writeAccount tbl u
          (fun q => { q with
            number_of_credits := p.number_of_credits + pkg.totalCredits,
            purchasedProducts := p.purchasedProducts }) s) := by
  simp only [applyPurchase]
  rw [if_neg (by simp [hot])]
  simp [hot]

theorem ensureAccount_write {s s₁ : Store} {u : String} {p : Profile}
    {tbl : Table} (hE : ensureAccount u s = (tbl, p, s₁))
    (f : Profile → Profile) :
    ensureAccount u (writeAccount tbl u f s₁) =
      (tbl, f p, writeAccount tbl u f s₁) := by
  have h := ensureAccount_write_roundtrip u f s
  rw [hE] at h
  exact h

theorem confirmPaymentSheet_repeat {pid uid : String} {intent : PaymentIntent}
    {s s' : Store} {pkg : CreditPackage} {a tot : Int} {pp : List String}
    (hpkg : findPackageById (intent.packageId.getD "") = some pkg)
    (hot : pkg.oneTime = true)
    (h : confirmPaymentSheet pid uid (some intent) s = (.credited a tot pp, s')) :
    confirmPaymentSheet pid uid (some intent) s' =
      (.alreadyPurchased tot pp, s') ∧ intent.productId.getD "" ∈ pp := by
  obtain ⟨hpid, huid, hst, hmeta, hown⟩ := confirmPaymentSheet_credited_inv h
  rcases hE : ensureAccount uid s with ⟨tbl, p, s₁⟩
  rw [confirmPaymentSheet_after_resolve hpid huid hst hmeta hown hpkg hE] at h
  obtain ⟨hnm, ha, htot, hpp, hs'⟩ := applyPurchase_credited_inv h
  simp only [hot, if_true] at hpp
  have hmem : intent.productId.getD "" ∈ pp :=
    hpp ▸ List.mem_append_right _ (List.mem_singleton_self _)
  have hE' := ensureAccount_write hE
    (fun q => { q with number_of_credits := tot, purchasedProducts := pp })
  rw [← hs'] at hE'
  rw [confirmPaymentSheet_after_resolve hpid huid hst hmeta hown hpkg hE']
  rw [applyPurchase_already hot hmem]
  exact ⟨rfl, hmem⟩

theorem confirmCheckout_repeat {sid uid : String} {sess : CheckoutSession}
    {s s' : Store} {pkg : CreditPackage} {a tot : Int} {pp : List String}
    (hpkg : findPackageById (sess.packageId.getD "") = some pkg)
    (hot : pkg.oneTime = true)
    (h : confirmCheckout sid uid (some sess) s = (.credited a tot pp, s')) :
    confirmCheckout sid uid (some sess) s' =
      (.alreadyPurchased tot pp, s') ∧ sess.productId.getD "" ∈ pp := by
  obtain ⟨hsid, huid, hst, hmeta, hown⟩ := confirmCheckout_credited_inv h
  rcases hE : ensureAccount uid s with ⟨tbl, p, s₁⟩
  rw [confirmCheckout_after_resolve hsid huid hst hmeta hown hpkg hE] at h
  obtain ⟨hnm, ha, htot, hpp, hs'⟩ := applyPurchase_credited_inv h
  simp only [hot, if_true] at hpp
  have hmem : sess.productId.getD "" ∈ pp :=
    hpp ▸ List.mem_append_right _ (List.mem_singleton_self _)
  have hE' := ensureAccount_write hE
    (fun q => { q with number_of_credits := tot, purchasedProducts := pp })
  rw [← hs'] at hE'
  rw [confirmCheckout_after_resolve hsid huid hst hmeta hown hpkg hE']
  rw [applyPurchase_already hot hmem]
  exact ⟨rfl, hmem⟩

/-! ## Claim theorems: purchase confirmation and auth -/

/-- C5: submitting the same successful provider transaction twice for a
one-time bundle credits the account exactly once, on both confirm
routes: after a first run that credited, the repeat run answers the
already-purchased success (`creditsAdded 0`) with the balance unchanged,
the product marker still recorded, and no store change. -/
theorem one_time_confirm_idempotent
    (pid sid uid : String) (intent : PaymentIntent) (sess : CheckoutSession)
    (s t s' t' : Store) (pkg pkg' : CreditPackage) (a a' tot tot' : Int)
    (pp pp' : List String)
    (hpkg : findPackageById (intent.packageId.getD "") = some pkg)
    (hot : pkg.oneTime = true)
    (h1 : confirmPaymentSheet pid uid (some intent) s = (.credited a tot pp, s'))
    (hpkg' : findPackageById (sess.packageId.getD "") = some pkg')
    (hot' : pkg'.oneTime = true)
    (h2 : confirmCheckout sid uid (some sess) t = (.credited a' tot' pp', t')) :
    (confirmPaymentSheet pid uid (some intent) s' =
        (.alreadyPurchased tot pp, s') ∧
      intent.productId.getD "" ∈ pp ∧
      (ConfirmResult.alreadyPurchased tot pp).creditsAdded = some 0) ∧
    (confirmCheckout sid uid (some sess) t' =
        (.alreadyPurchased tot' pp', t') ∧
      sess.productId.getD "" ∈ pp' ∧
      (ConfirmResult.alreadyPurchased tot' pp').creditsAdded = some 0) := by
  obtain ⟨hr1, hm1⟩ := confirmPaymentSheet_repeat hpkg hot h1
  obtain ⟨hr2, hm2⟩ := confirmCheckout_repeat hpkg' hot' h2
  exact ⟨⟨hr1, hm1, rfl⟩, ⟨hr2, hm2, rfl⟩⟩

/-- Witness for C5: the one-time `200` pack is bought once on each route,
then the repeat confirmation no-ops. -/
theorem one_time_confirm_idempotent_witness :
    (confirmPaymentSheet "pi_1" "u1"
        (some ⟨"succeeded", some "200", some "credits_200", some "u1"⟩)
        ⟨[("u1", ⟨600, [], ["credits_200"]⟩)], []⟩ =
      (.alreadyPurchased 600 ["credits_200"],
        ⟨[("u1", ⟨600, [], ["credits_200"]⟩)], []⟩) ∧
      (PaymentIntent.mk "succeeded" (some "200") (some "credits_200")
        (some "u1")).productId.getD "" ∈ ["credits_200"] ∧
      (ConfirmResult.alreadyPurchased 600 ["credits_200"]).creditsAdded =
        some 0) ∧
    (confirmCheckout "cs_1" "u1"
        (some ⟨"paid", "complete", some "200", some "credits_200", none,
          some "u1"⟩)
        ⟨[], [("u1", ⟨605, [], ["credits_200"]⟩)]⟩ =
      (.alreadyPurchased 605 ["credits_200"],
        ⟨[], [("u1", ⟨605, [], ["credits_200"]⟩)]⟩) ∧
      (CheckoutSession.mk "paid" "complete" (some "200") (some "credits_200")
        none (some "u1")).productId.getD "" ∈ ["credits_200"] ∧
      (ConfirmResult.alreadyPurchased 605 ["credits_200"]).creditsAdded =
        some 0) :=
  one_time_confirm_idempotent "pi_1" "cs_1" "u1"
    ⟨"succeeded", some "200", some "credits_200", some "u1"⟩
    ⟨"paid", "complete", some "200", some "credits_200", none, some "u1"⟩
    ⟨[("u1", ⟨0, [], []⟩)], []⟩ ⟨[], [("u1", ⟨5, [], []⟩)]⟩
    ⟨[("u1", ⟨600, [], ["credits_200"]⟩)], []⟩
    ⟨[], [("u1", ⟨605, [], ["credits_200"]⟩)]⟩
    ⟨"200", 200, 200, 600, "credits_200", true⟩
    ⟨"200", 200, 200, 600, "credits_200", true⟩
    600 600 600 605 ["credits_200"] ["credits_200"]
    (by decide) (by decide) (by decide) (by decide) (by decide) (by decide)

/-- C6: a provider transaction whose reported state is not an accepted
completed state (for example `canceled`) is rejected with HTTP 400 by
both confirm routes, and the store is untouched. -/
theorem incomplete_payment_rejected
    (pid sid uid : String) (intent : PaymentIntent) (sess : CheckoutSession)
    (s t : Store)
    (hst : intent.status ≠ "succeeded" ∧ intent.status ≠ "requires_capture")
    (hses : sess.payment_status ≠ "paid" ∧ sess.status ≠ "complete") :
    ((confirmPaymentSheet pid uid (some intent) s).2 = s ∧
      (confirmPaymentSheet pid uid (some intent) s).1.httpStatus = 400) ∧
    ((confirmCheckout sid uid (some sess) t).2 = t ∧
      (confirmCheckout sid uid (some sess) t).1.httpStatus = 400) := by
  constructor
  · simp only [confirmPaymentSheet]
    by_cases h1 : pid = "" ∨ uid = ""
    · rw [if_pos h1]
      exact ⟨rfl, rfl⟩
    · rw [if_neg h1, if_pos hst]
      exact ⟨rfl, rfl⟩
  · simp only [confirmCheckout]
    by_cases h1 : sid = "" ∨ uid = ""
    · rw [if_pos h1]
      exact ⟨rfl, rfl⟩
    · rw [if_neg h1, if_pos hses]
      exact ⟨rfl, rfl⟩

/-- Witness for C6 with state `canceled` on both routes. -/
theorem incomplete_payment_rejected_witness :
    ((confirmPaymentSheet "pi_1" "u1"
        (some ⟨"canceled", some "500", some "credits_500", some "u1"⟩)
        ⟨[("u1", ⟨49, [], []⟩)], []⟩).2 = ⟨[("u1", ⟨49, [], []⟩)], []⟩ ∧
      (confirmPaymentSheet "pi_1" "u1"
        (some ⟨"canceled", some "500", some "credits_500", some "u1"⟩)
        ⟨[("u1", ⟨49, [], []⟩)], []⟩).1.httpStatus = 400) ∧
    ((confirmCheckout "cs_1" "u1"
        (some ⟨"unpaid", "expired", some "500", some "credits_500", none,
          some "u1"⟩)
        ⟨[("u1", ⟨49, [], []⟩)], []⟩).2 = ⟨[("u1", ⟨49, [], []⟩)], []⟩ ∧
      (confirmCheckout "cs_1" "u1"
        (some ⟨"unpaid", "expired", some "500", some "credits_500", none,
          some "u1"⟩)
        ⟨[("u1", ⟨49, [], []⟩)], []⟩).1.httpStatus = 400) :=
  incomplete_payment_rejected "pi_1" "cs_1" "u1"
    ⟨"canceled", some "500", some "credits_500", some "u1"⟩
    ⟨"unpaid", "expired", some "500", some "credits_500", none, some "u1"⟩
    ⟨[("u1", ⟨49, [], []⟩)], []⟩ ⟨[("u1", ⟨49, [], []⟩)], []⟩
    (by decide) (by decide)

/-- C7: when the account identifier embedded in the provider
transaction's metadata is present and differs from the requesting
account, both confirm routes reject with HTTP 400 and leave the store
unchanged. -/
theorem ownership_mismatch_rejected
    (pid sid uid mu : String) (intent : PaymentIntent) (sess : CheckoutSession)
    (s t : Store)
    (hmu : intent.userId = some mu) (hsm : sess.userId = some mu)
    (hne : mu ≠ "") (hneq : mu ≠ uid) :
    ((confirmPaymentSheet pid uid (some intent) s).2 = s ∧
      (confirmPaymentSheet pid uid (some intent) s).1.httpStatus = 400) ∧
    ((confirmCheckout sid uid (some sess) t).2 = t ∧
      (confirmCheckout sid uid (some sess) t).1.httpStatus = 400) := by
  constructor
  · simp only [confirmPaymentSheet]
    by_cases h1 : pid = "" ∨ uid = ""
    · rw [if_pos h1]
      exact ⟨rfl, rfl⟩
    rw [if_neg h1]
    by_cases h2 : intent.status ≠ "succeeded" ∧ intent.status ≠ "requires_capture"
    · rw [if_pos h2]
      exact ⟨rfl, rfl⟩
    rw [if_neg h2]
    by_cases h3 : optFalsy intent.packageId ∨ optFalsy intent.productId
    · rw [if_pos h3]
      exact ⟨rfl, rfl⟩
    rw [if_neg h3]
    rw [if_pos (show intent.userId.getD "" ≠ "" ∧ intent.userId.getD "" ≠ uid by
      rw [hmu]
      exact ⟨hne, hneq⟩)]
    exact ⟨rfl, rfl⟩
  · simp only [confirmCheckout]
    by_cases h1 : sid = "" ∨ uid = ""
    · rw [if_pos h1]
      exact ⟨rfl, rfl⟩
    rw [if_neg h1]
    by_cases h2 : sess.payment_status ≠ "paid" ∧ sess.status ≠ "complete"
    · rw [if_pos h2]
      exact ⟨rfl, rfl⟩
    rw [if_neg h2]
    by_cases h3 : optFalsy sess.packageId ∨ optFalsy sess.productId
    · rw [if_pos h3]
      exact ⟨rfl, rfl⟩
    rw [if_neg h3]
    rw [if_pos (show (if optFalsy sess.userId then
          sess.client_reference_id.getD "" else sess.userId.getD "") ≠ "" ∧
        (if optFalsy sess.userId then
          sess.client_reference_id.getD "" else sess.userId.getD "") ≠ uid by
      have hf : optFalsy sess.userId = false := by
        rw [hsm]
        simp [optFalsy, hne]
      rw [hf, hsm]
      simpa using ⟨hne, hneq⟩)]
    exact ⟨rfl, rfl⟩

/-- Witness for C7: metadata names account `u2`, requester is `u1`. -/
theorem ownership_mismatch_rejected_witness :
    ((confirmPaymentSheet "pi_1" "u1"
        (some ⟨"succeeded", some "500", some "credits_500", some "u2"⟩)
        ⟨[("u1", ⟨49, [], []⟩)], []⟩).2 = ⟨[("u1", ⟨49, [], []⟩)], []⟩ ∧
      (confirmPaymentSheet "pi_1" "u1"
        (some ⟨"succeeded", some "500", some "credits_500", some "u2"⟩)
        ⟨[("u1", ⟨49, [], []⟩)], []⟩).1.httpStatus = 400) ∧
    ((confirmCheckout "cs_1" "u1"
        (some ⟨"paid", "complete", some "500", some "credits_500", some "u2",
          none⟩)
        ⟨[("u1", ⟨49, [], []⟩)], []⟩).2 = ⟨[("u1", ⟨49, [], []⟩)], []⟩ ∧
      (confirmCheckout "cs_1" "u1"
        (some ⟨"paid", "complete", some "500", some "credits_500", some "u2",
          none⟩)
        ⟨[("u1", ⟨49, [], []⟩)], []⟩).1.httpStatus = 400) :=
  ownership_mismatch_rejected "pi_1" "cs_1" "u1" "u2"
    ⟨"succeeded", some "500", some "credits_500", some "u2"⟩
    ⟨"paid", "complete", some "500", some "credits_500", some "u2", none⟩
    ⟨[("u1", ⟨49, [], []⟩)], []⟩ ⟨[("u1", ⟨49, [], []⟩)], []⟩
    (by decide) (by decide) (by decide) (by decide)

/-- C8: the claim says an existing account survives a successful
POST /api/auth/verify unchanged; the code instead upserts the fixed
signup profile with on-conflict merge, so an existing user holding 500
credits, one paid chapter and one purchased product is reset to 1250
credits with empty marker sets. -/
theorem verify_resets_existing_profile :
    lookupRow (verifyProfileUpsert "u1"
        ⟨[("u1", ⟨500, ["b1:6"], ["credits_200"]⟩)], []⟩).users "u1" =
      some verifyDefaultProfile ∧
    verifyDefaultProfile.number_of_credits = 1250 ∧
    verifyDefaultProfile.paid_chapters = [] ∧
    verifyDefaultProfile.purchasedProducts = [] ∧
    lookupRow (⟨[("u1", ⟨500, ["b1:6"], ["credits_200"]⟩)], []⟩ : Store).users
        "u1" = some ⟨500, ["b1:6"], ["credits_200"]⟩ := by
  decide

/-- C9 counterexample: at the exact scenario the claim describes — the
provider reports a fresh successful transaction for the one-time `200`
pack while the local marker is already recorded — both confirm routes
answer the already-purchased no-op with `creditsAdded 0` and an
unchanged store; the stale marker is not cleared and no credits are
awarded. -/
theorem stale_marker_not_overridden_example :
    confirmPaymentSheet "pi_1" "u1"
        (some ⟨"succeeded", some "200", some "credits_200", some "u1"⟩)
        ⟨[("u1", ⟨0, [], ["credits_200"]⟩)], []⟩ =
      (.alreadyPurchased 0 ["credits_200"],
        ⟨[("u1", ⟨0, [], ["credits_200"]⟩)], []⟩) ∧
    confirmCheckout "cs_1" "u1"
        (some ⟨"paid", "complete", some "200", some "credits_200", some "u1",
          none⟩)
        ⟨[("u1", ⟨0, [], ["credits_200"]⟩)], []⟩ =
      (.alreadyPurchased 0 ["credits_200"],
        ⟨[("u1", ⟨0, [], ["credits_200"]⟩)], []⟩) ∧
    (ConfirmResult.alreadyPurchased 0 ["credits_200"]).creditsAdded =
      some 0 := by
  decide

/-- C9 amended: in every purchase-verification path of this code base the
local one-time marker is authoritative: whenever the marker is present
for a one-time package, both confirm routes return the already-purchased
no-op with the balance and marker set unchanged — even when the provider
reports a fresh successful transaction — and no path clears the stale
marker or awards the credits. -/
theorem local_marker_authoritative
    (pid sid uid : String) (intent : PaymentIntent) (sess : CheckoutSession)
    (s t : Store) (pkg pkg' : CreditPackage) (p q : Profile)
    (hpid : pid ≠ "") (hsid : sid ≠ "") (huid : uid ≠ "")
    (hst : intent.status = "succeeded")
    (hpkg : findPackageById (intent.packageId.getD "") = some pkg)
    (hot : pkg.oneTime = true)
    (hmeta : ¬(optFalsy intent.packageId ∨ optFalsy intent.productId))
    (hown : ¬(intent.userId.getD "" ≠ "" ∧ intent.userId.getD "" ≠ uid))
    (hacc : resolvesTo s uid p)
    (hmem : intent.productId.getD "" ∈ p.purchasedProducts)
    (hst' : sess.payment_status = "paid")
    (hpkg' : findPackageById (sess.packageId.getD "") = some pkg')
    (hot' : pkg'.oneTime = true)
    (hmeta' : ¬(optFalsy sess.packageId ∨ optFalsy sess.productId))
    (hown' : ¬((if optFalsy sess.userId then sess.client_reference_id.getD ""
        else sess.userId.getD "") ≠ "" ∧
      (if optFalsy sess.userId then sess.client_reference_id.getD ""
        else sess.userId.getD "") ≠ uid))
    (hacc' : resolvesTo t uid q)
    (hmem' : sess.productId.getD "" ∈ q.purchasedProducts) :
    confirmPaymentSheet pid uid (some intent) s =
      (.alreadyPurchased p.number_of_credits p.purchasedProducts, s) ∧
    confirmCheckout sid uid (some sess) t =
      (.alreadyPurchased q.number_of_credits q.purchasedProducts, t) := by
  obtain ⟨tbl, hE⟩ := ensureAccount_resolvesTo hacc
  obtain ⟨tbl', hE'⟩ := ensureAccount_resolvesTo hacc'
  constructor
  · rw [confirmPaymentSheet_after_resolve hpid huid (by simp [hst]) hmeta hown
      hpkg hE]
    rw [applyPurchase_already hot hmem]
  · rw [confirmCheckout_after_resolve hsid huid (by simp [hst']) hmeta' hown'
      hpkg' hE']
    rw [applyPurchase_already hot' hmem']

/-- Witness for C9 amended at the counterexample's scenario. -/
theorem local_marker_authoritative_witness :
    confirmPaymentSheet "pi_9" "u1"
        (some ⟨"succeeded", some "200", some "credits_200", none⟩)
        ⟨[], [("u1", ⟨7, [], ["credits_200"]⟩)]⟩ =
      (.alreadyPurchased 7 ["credits_200"],
        ⟨[], [("u1", ⟨7, [], ["credits_200"]⟩)]⟩) ∧
    confirmCheckout "cs_9" "u1"
        (some ⟨"paid", "complete", some "200", some "credits_200", none,
          some "u1"⟩)
        ⟨[], [("u1", ⟨7, [], ["credits_200"]⟩)]⟩ =
      (.alreadyPurchased 7 ["credits_200"],
        ⟨[], [("u1", ⟨7, [], ["credits_200"]⟩)]⟩) :=
  local_marker_authoritative "pi_9" "cs_9" "u1"
    ⟨"succeeded", some "200", some "credits_200", none⟩
    ⟨"paid", "complete", some "200", some "credits_200", none, some "u1"⟩
    ⟨[], [("u1", ⟨7, [], ["credits_200"]⟩)]⟩
    ⟨[], [("u1", ⟨7, [], ["credits_200"]⟩)]⟩
    ⟨"200", 200, 200, 600, "credits_200", true⟩
    ⟨"200", 200, 200, 600, "credits_200", true⟩
    ⟨7, [], ["credits_200"]⟩ ⟨7, [], ["credits_200"]⟩
    (by decide) (by decide) (by decide) (by decide) (by decide) (by decide)
    (by decide) (by decide) (Or.inr ⟨by decide, by decide⟩) (by decide)
    (by decide) (by decide) (by decide) (by decide) (by decide)
    (Or.inr ⟨by decide, by decide⟩) (by decide)

/-- C10: for a package that is not one-time, confirmation records no
idempotency marker, so two successful confirmations of the same paid
provider transaction each add `totalCredits`: the first response
reports `initial + totalCredits`, the repeat reports
`initial + 2 * totalCredits`, and the purchased-products markers are
unchanged both times — on both confirm routes. -/
theorem non_one_time_double_credit
    (pid sid uid : String) (intent : PaymentIntent) (sess : CheckoutSession)
    (s t : Store) (pkg pkg' : CreditPackage) (p q : Profile)
    (hpid : pid ≠ "") (hsid : sid ≠ "") (huid : uid ≠ "")
    (hst : ¬(intent.status ≠ "succeeded" ∧ intent.status ≠ "requires_capture"))
    (hmeta : ¬(optFalsy intent.packageId ∨ optFalsy intent.productId))
    (hown : ¬(intent.userId.getD "" ≠ "" ∧ intent.userId.getD "" ≠ uid))
    (hpkg : findPackageById (intent.packageId.getD "") = some pkg)
    (hot : pkg.oneTime = false)
    (hacc : resolvesTo s uid p)
    (hst' : ¬(sess.payment_status ≠ "paid" ∧ sess.status ≠ "complete"))
    (hmeta' : ¬(optFalsy sess.packageId ∨ optFalsy sess.productId))
    (hown' : ¬((if optFalsy sess.userId then sess.client_reference_id.getD ""
        else sess.userId.getD "") ≠ "" ∧
      (if optFalsy sess.userId then sess.client_reference_id.getD ""
        else sess.userId.getD "") ≠ uid))
    (hpkg' : findPackageById (sess.packageId.getD "") = some pkg')
    (hot' : pkg'.oneTime = false)
    (hacc' : resolvesTo t uid q) :
    ((confirmPaymentSheet pid uid (some intent) s).1 =
        .credited pkg.totalCredits
          (p.number_of_credits + pkg.totalCredits) p.purchasedProducts ∧
      (confirmPaymentSheet pid uid (some intent)
          (confirmPaymentSheet pid uid (some intent) s).2).1 =
        .credited pkg.totalCredits
          (p.number_of_credits + 2 * pkg.totalCredits) p.purchasedProducts) ∧
    ((confirmCheckout sid uid (some sess) t).1 =
        .credited pkg'.totalCredits
          (q.number_of_credits + pkg'.totalCredits) q.purchasedProducts ∧
      (confirmCheckout sid uid (some sess)
          (confirmCheckout sid uid (some sess) t).2).1 =
        .credited pkg'.totalCredits
          (q.number_of_credits + 2 * pkg'.totalCredits)
          q.purchasedProducts) := by
  obtain ⟨tbl, hE⟩ := ensureAccount_resolvesTo hacc
  obtain ⟨tbl', hE'⟩ := ensureAccount_resolvesTo hacc'
  have e1 : confirmPaymentSheet pid uid (some intent) s =
      applyPurchase tbl uid (intent.productId.getD "") pkg p s :=
    confirmPaymentSheet_after_resolve hpid huid hst hmeta hown hpkg hE
  rw [applyPurchase_not_oneTime hot] at e1
  have hE2 := ensureAccount_write hE
    (fun r => { r with
      number_of_credits := p.number_of_credits + pkg.totalCredits,
      purchasedProducts := p.purchasedProducts })
  have e2 : confirmPaymentSheet pid uid (some intent)
      (writeAccount tbl uid
        (fun r => { r with
          number_of_credits := p.number_of_credits + pkg.totalCredits,
          purchasedProducts := p.purchasedProducts }) s) =
      applyPurchase tbl uid (intent.productId.getD "") pkg
        ((fun r => { r with
          number_of_credits := p.number_of_credits + pkg.totalCredits,
          purchasedProducts := p.purchasedProducts }) p)
        (writeAccount tbl uid
          (fun r => { r with
            number_of_credits := p.number_of_credits + pkg.totalCredits,
            purchasedProducts := p.purchasedProducts }) s) :=
    confirmPaymentSheet_after_resolve hpid huid hst hmeta hown hpkg hE2
  rw [applyPurchase_not_oneTime hot] at e2
  have f1 : confirmCheckout sid uid (some sess) t =
      applyPurchase tbl' uid (sess.productId.getD "") pkg' q t :=
    confirmCheckout_after_resolve hsid huid hst' hmeta' hown' hpkg' hE'
  rw [applyPurchase_not_oneTime hot'] at f1
  have hF2 := ensureAccount_write hE'
    (fun r => { r with
      number_of_credits := q.number_of_credits + pkg'.totalCredits,
      purchasedProducts := q.purchasedProducts })
  have f2 : confirmCheckout sid uid (some sess)
      (writeAccount tbl' uid
        (fun r => { r with
          number_of_credits := q.number_of_credits + pkg'.totalCredits,
          purchasedProducts := q.purchasedProducts }) t) =
      applyPurchase tbl' uid (sess.productId.getD "") pkg'
        ((fun r => { r with
          number_of_credits := q.number_of_credits + pkg'.totalCredits,
          purchasedProducts := q.purchasedProducts }) q)
        (writeAccount tbl' uid
          (fun r => { r with
            number_of_credits := q.number_of_credits + pkg'.totalCredits,
            purchasedProducts := q.purchasedProducts }) t) :=
    confirmCheckout_after_resolve hsid huid hst' hmeta' hown' hpkg' hF2
  rw [applyPurchase_not_oneTime hot'] at f2
  refine ⟨⟨by rw [e1], ?_⟩, by rw [f1], ?_⟩
  · rw [e1]
    show (confirmPaymentSheet pid uid (some intent) _).1 = _
    rw [e2]
    show ConfirmResult.credited pkg.totalCredits
        (p.number_of_credits + pkg.totalCredits + pkg.totalCredits)
        p.purchasedProducts = _
    have : p.number_of_credits + pkg.totalCredits + pkg.totalCredits =
        p.number_of_credits + 2 * pkg.totalCredits := by ring
    rw [this]
  · rw [f1]
    show (confirmCheckout sid uid (some sess) _).1 = _
    rw [f2]
    show ConfirmResult.credited pkg'.totalCredits
        (q.number_of_credits + pkg'.totalCredits + pkg'.totalCredits)
        q.purchasedProducts = _
    have : q.number_of_credits + pkg'.totalCredits + pkg'.totalCredits =
        q.number_of_credits + 2 * pkg'.totalCredits := by ring
    rw [this]

/-- Witness for C10: the `500` pack, not one-time, credits 500 twice in a
row from balance 0 on each route. -/
theorem non_one_time_double_credit_witness :
    ((confirmPaymentSheet "pi_1" "u1"
        (some ⟨"succeeded", some "500", some "credits_500", some "u1"⟩)
        ⟨[("u1", ⟨0, [], []⟩)], []⟩).1 = .credited 500 500 [] ∧
      (confirmPaymentSheet "pi_1" "u1"
        (some ⟨"succeeded", some "500", some "credits_500", some "u1"⟩)
        (confirmPaymentSheet "pi_1" "u1"
          (some ⟨"succeeded", some "500", some "credits_500", some "u1"⟩)
          ⟨[("u1", ⟨0, [], []⟩)], []⟩).2).1 = .credited 500 1000 []) ∧
    ((confirmCheckout "cs_1" "u1"
        (some ⟨"paid", "complete", some "500", some "credits_500", none,
          some "u1"⟩)
        ⟨[], [("u1", ⟨3, [], []⟩)]⟩).1 = .credited 500 503 [] ∧
      (confirmCheckout "cs_1" "u1"
        (some ⟨"paid", "complete", some "500", some "credits_500", none,
          some "u1"⟩)
        (confirmCheckout "cs_1" "u1"
          (some ⟨"paid", "complete", some "500", some "credits_500", none,
            some "u1"⟩)
          ⟨[], [("u1", ⟨3, [], []⟩)]⟩).2).1 = .credited 500 1003 []) :=
  non_one_time_double_credit "pi_1" "cs_1" "u1"
    ⟨"succeeded", some "500", some "credits_500", some "u1"⟩
    ⟨"paid", "complete", some "500", some "credits_500", none, some "u1"⟩
    ⟨[("u1", ⟨0, [], []⟩)], []⟩ ⟨[], [("u1", ⟨3, [], []⟩)]⟩
    ⟨"500", 500, 0, 500, "credits_500", false⟩
    ⟨"500", 500, 0, 500, "credits_500", false⟩
    ⟨0, [], []⟩ ⟨3, [], []⟩
    (by decide) (by decide) (by decide) (by decide) (by decide) (by decide)
    (by decide) (by decide) (Or.inl (by decide)) (by decide) (by decide)
    (by decide) (by decide) (by decide)
    (Or.inr ⟨by decide, by decide⟩)

end Bookstore
